import Mathlib

/-!
Shallow embedding of the weight-triggered dispensing controller
(`src/code.ino`, an Arduino sketch).

Modelling conventions:
* Arduino `float` values (`desiredWeight`, `measuredWeight`) are modelled as
  `ℚ`; the controller only assigns, subtracts constants and compares, so the
  rational model is exact.
* `millis()` is modelled by a single timestamp `Env.now : ℕ` per loop
  iteration; the code calls `millis()` several times in one handler, but all
  calls within one non-blocking poll are sub-millisecond apart.  Unsigned
  32-bit subtraction `millis() - t0` is modelled by truncated `Nat`
  subtraction, which agrees with the machine whenever `t0 ≤ now`; every
  recorded timestamp comes from the same monotone clock, and 32-bit
  wrap-around (49.7 days) is out of scope.
* The external gateways (HX711 sensor, keypad, LCD) are modelled by the
  per-iteration environment `Env`: the pressed key (if any), whether
  `weightSensor.update()` returns true, the tare-status flag and the raw
  reading.  The LCD is modelled by its two text lines; serial logging is
  ignored (it has no effect on control flow).
* The `static` locals of `performTaring`, `controlDispensing` and
  `preciseDispensing` are persistent program state, so they are fields of
  `Sys`.  The initializer of `tareBeginTime` (`= millis()` at first call) is
  irrelevant because the `!isTaring` branch overwrites it before any read;
  the initial state uses 0.
* Calls with externally visible timing (issuing a tare command, invoking the
  pulsed drive, running the full reset) additionally emit an `Event`, so that
  theorems can speak about "a tare command was issued on this poll" etc.
-/

/-- `enum SystemMode { WEIGHT_INPUT, ZEROING, DISPENSING, FINISHED }`. -/
inductive SystemMode
  | weightInput
  | zeroing
  | dispensing
  | finished
deriving DecidableEq, Repr

/-- Externally visible actions of one loop iteration:
`tareCmd` = `weightSensor.tare()` was called, `reset` = `restartSystem()`
was called, `pulse on off` = `preciseDispensing(on)` was invoked (its fixed
off-duration `offTime = 200` recorded alongside). -/
inductive Event
  | tareCmd
  | reset
  | pulse (onTime offTime : ℕ)
deriving DecidableEq, Repr

/-- Inputs read from the external gateways during one loop iteration. -/
structure Env where
  /-- `millis()` for this iteration. -/
  now : ℕ
  /-- `userKeypad.getKey()`: `none` when no key is pressed. -/
  key : Option Char
  /-- `weightSensor.update()`. -/
  sensorUpdate : Bool
  /-- `weightSensor.getTareStatus()`. -/
  tareStatus : Bool
  /-- `weightSensor.getData()`. -/
  sensorData : ℚ
deriving DecidableEq, Repr

/-- The whole mutable program state: the global variables of the sketch plus
the `static` locals of the handlers, plus the motor pins and LCD lines. -/
structure Sys where
  /-- `SystemMode currentMode`. -/
  currentMode : SystemMode
  /-- `float desiredWeight` (the target mass). -/
  desiredWeight : ℚ
  /-- `float measuredWeight` (the current mass). -/
  measuredWeight : ℚ
  /-- `String userInput` (the input buffer), as a character list. -/
  userInput : List Char
  /-- `bool isMotorOn`. -/
  isMotorOn : Bool
  /-- `bool fineControlMode`. -/
  fineControlMode : Bool
  /-- `unsigned long previousUpdate` (display-refresh rate limit). -/
  previousUpdate : ℕ
  /-- `unsigned long completionTime`. -/
  completionTime : ℕ
  /-- digital level of `MOTOR_PIN1`. -/
  motorPin1 : Bool
  /-- digital level of `MOTOR_PIN2`. -/
  motorPin2 : Bool
  /-- LCD row 0 text. -/
  displayTop : String
  /-- LCD row 1 text. -/
  displayBottom : String
  /-- `static bool isTaring` of `performTaring`. -/
  isTaring : Bool
  /-- `static unsigned long tareBeginTime` of `performTaring`. -/
  tareBeginTime : ℕ
  /-- `static unsigned long lastMeasurement` of `controlDispensing`
  (sensor-sampling rate limit). -/
  lastMeasurement : ℕ
  /-- `static bool isMotorActive` of `preciseDispensing`. -/
  isMotorActive : Bool
  /-- `static unsigned long lastMotorChange` of `preciseDispensing`. -/
  lastMotorChange : ℕ
deriving DecidableEq, Repr

/-- `showOnDisplay(message)`: clear the LCD, home the cursor, print the
message on row 0 (the clear blanks row 1). -/
def showOnDisplay (s : Sys) (message : String) : Sys :=
  { s with displayTop := message, displayBottom := "" }

/-- `refreshDisplay()`: blank row 1 then print the input buffer there
(the blank padding to 16 columns is elided; only the text matters). -/
def refreshDisplay (s : Sys) : Sys :=
  { s with displayBottom := String.mk s.userInput }

/-- `turnMotorOff()`: both motor pins LOW, `isMotorOn = false`. -/
def turnMotorOff (s : Sys) : Sys :=
  { s with motorPin1 := false, motorPin2 := false, isMotorOn := false }

/-- `turnMotorOn()`: drive the pins only when not in fine-control mode;
always set `isMotorOn = true`. -/
def turnMotorOn (s : Sys) : Sys :=
  if !s.fineControlMode then
    { s with motorPin1 := true, motorPin2 := false, isMotorOn := true }
  else
    { s with isMotorOn := true }

/-- `restartSystem()`: clear target, measurement, buffer and fine-control
flag, stop the motor, return to `WEIGHT_INPUT`, restore the input prompt. -/
def restartSystem (s : Sys) : Sys :=
  showOnDisplay
    (turnMotorOff
      { s with
          desiredWeight := 0
          measuredWeight := 0
          userInput := []
          fineControlMode := false
          currentMode := SystemMode.weightInput })
    "Input Weight (g):"

/-- Numeric value of a digit list (most significant first). -/
def digitsVal (l : List Char) : ℕ :=
  l.foldl (fun a c => a * 10 + (c.toNat - 48)) 0

/-- `String::toFloat()` (via `atof`) restricted to the buffers this program
builds (digits and dots, no sign, no exponent): parse a leading run of
digits, then an optional fractional part after a single dot, and ignore the
rest (a second dot stops the parse).  Empty and all-dot strings parse to 0. -/
def parseFloat (l : List Char) : ℚ :=
  let intDigits := l.takeWhile Char.isDigit
  let rest := l.dropWhile Char.isDigit
  let fracDigits :=
    match rest with
    | '.' :: r => r.takeWhile Char.isDigit
    | _ => []
  (digitsVal intDigits : ℚ) + (digitsVal fracDigits : ℚ) / (10 ^ fracDigits.length)

/-- `processUserInput()`: the `WEIGHT_INPUT` handler.  Reads at most one key:
`#` finalizes (assign `desiredWeight = toFloat(buffer)`, then a value > 0
moves to `ZEROING`; the source reads the just-assigned global back in the
`> 0` test, inlined here), `*` cancels, a digit or dot is appended while the
buffer is shorter than 6. -/
def processUserInput (s : Sys) (key : Option Char) : Sys :=
  match key with
  | none => s
  | some pressedKey =>
    if pressedKey = '#' then
      if s.userInput.length > 0 then
        if parseFloat s.userInput > 0 then
          showOnDisplay
            { s with
                desiredWeight := parseFloat s.userInput
                currentMode := SystemMode.zeroing }
            "Calibrating..."
        else
          { s with desiredWeight := parseFloat s.userInput }
      else
        s
    else if pressedKey = '*' then
      { showOnDisplay { s with userInput := [] } "Input Weight (g):" with
          displayBottom := "                " }
    else if (pressedKey.isDigit || pressedKey = '.') && s.userInput.length < 6 then
      refreshDisplay { s with userInput := s.userInput ++ [pressedKey] }
    else
      s

/-- `performTaring()`: the `ZEROING` handler.  First poll with `!isTaring`
issues the tare command and records the start time; afterwards a poll more
than 10000 ms past the start runs the full reset, and otherwise a sensor
update with the tare-status flag set moves to `DISPENSING` and starts the
motor. -/
def performTaring (s : Sys) (env : Env) : Sys × List Event :=
  if !s.isTaring then
    ({ s with isTaring := true, tareBeginTime := env.now }, [Event.tareCmd])
  else if env.now - s.tareBeginTime > 10000 then
    (restartSystem s, [Event.reset])
  else if env.sensorUpdate then
    if env.tareStatus then
      (turnMotorOn { s with isTaring := false, currentMode := SystemMode.dispensing }, [])
    else
      (s, [])
  else
    (s, [])

/-- `preciseDispensing(onTime)`: the duty-cycled pulsed drive.  While active,
switch `MOTOR_PIN1` off once `onTime` has elapsed since the last transition;
while idle, switch the motor pins on once the fixed `offTime = 200` has
elapsed.  The source locals `offTime` (the constant 200) and
`timeSinceChange` (`now - lastMotorChange`) are inlined. -/
def preciseDispensing (s : Sys) (now : ℕ) (onTime : ℕ) : Sys :=
  if s.isMotorActive then
    if now - s.lastMotorChange ≥ onTime then
      { s with motorPin1 := false, isMotorActive := false, lastMotorChange := now }
    else
      s
  else
    if now - s.lastMotorChange ≥ 200 then
      { s with motorPin1 := true, motorPin2 := false, isMotorActive := true, lastMotorChange := now }
    else
      s

/-- `print(value, 2)` for a non-negative value: add the rounding constant
0.005, print the integer part, a dot, then two fractional digits. -/
def fmt2Nonneg (q : ℚ) : String :=
  let n := ((q + 1 / 200) * 100).floor.toNat
  toString (n / 100) ++ "." ++ toString (n % 100 / 10) ++ toString (n % 10)

/-- `LiquidCrystal_I2C::print(float, 2)`. -/
def fmt2 (q : ℚ) : String :=
  if q < 0 then "-" ++ fmt2Nonneg (-q) else fmt2Nonneg q

/-- Sensor-sampling activity of `controlDispensing` (rate limited to one
sample per 200 ms = `SENSOR_READ_DELAY`); a successful `update()` stores the
absolute value of the reading. -/
def sampleSensor (s : Sys) (env : Env) : Sys :=
  if env.now - s.lastMeasurement ≥ 200 then
    let s1 := if env.sensorUpdate then { s with measuredWeight := |env.sensorData| } else s
    { s1 with lastMeasurement := env.now }
  else
    s

/-- Display-refresh activity of `controlDispensing` (rate limited to one
refresh per 500 ms = `SCREEN_UPDATE_DELAY`): render `measured g/ desired g`
on row 1 with two decimals. -/
def refreshWeights (s : Sys) (env : Env) : Sys :=
  if env.now - s.previousUpdate ≥ 500 then
    { s with
        displayBottom := fmt2 s.measuredWeight ++ "g/" ++ fmt2 s.desiredWeight ++ "g   "
        previousUpdate := env.now }
  else
    s

/-- `if(desiredWeight <= 600) fineControlMode = true;`. -/
def forceFine (s : Sys) : Sys :=
  if s.desiredWeight ≤ 600 then { s with fineControlMode := true } else s

/-- The pulsed-drive dispatch of `controlDispensing`: in fine mode call
`preciseDispensing(20)` within 200 of the target and `preciseDispensing(80)`
otherwise; no call outside fine mode. -/
def drivePulses (s : Sys) (now : ℕ) : Sys × List Event :=
  if s.measuredWeight ≥ s.desiredWeight - 200 ∧ s.fineControlMode then
    (preciseDispensing s now 20, [Event.pulse 20 200])
  else if s.fineControlMode then
    (preciseDispensing s now 80, [Event.pulse 80 200])
  else
    (s, [])

/-- Tail of `controlDispensing`: on `measuredWeight >= desiredWeight` stop the
motor, move to `FINISHED`, show "Completed!" and record the completion time;
otherwise enter fine mode when within 500 of the target. -/
def finishOrEnterFine (s : Sys) (now : ℕ) : Sys :=
  if s.measuredWeight ≥ s.desiredWeight then
    { showOnDisplay (turnMotorOff { s with currentMode := SystemMode.finished }) "Completed!" with
        completionTime := now }
  else if s.measuredWeight > s.desiredWeight - 500 ∧ !s.fineControlMode then
    { s with fineControlMode := true }
  else
    s

/-- `controlDispensing()`: the `DISPENSING` handler, in source order —
sample, refresh display, force fine mode for small targets, pulse drive,
then the completion / fine-mode-entry branch. -/
def controlDispensing (s : Sys) (env : Env) : Sys × List Event :=
  let s1 := sampleSensor s env
  let s2 := refreshWeights s1 env
  let s3 := forceFine s2
  let p := drivePulses s3 env.now
  (finishOrEnterFine p.1 env.now, p.2)

/-- `showCompletion()`: the `FINISHED` handler — full reset after a 5000 ms
dwell. -/
def showCompletion (s : Sys) (env : Env) : Sys × List Event :=
  if env.now - s.completionTime ≥ 5000 then
    (restartSystem s, [Event.reset])
  else
    (s, [])

/-- One iteration of `loop()`: dispatch on `currentMode`. -/
def loopStep (s : Sys) (env : Env) : Sys × List Event :=
  match s.currentMode with
  | SystemMode.weightInput => (processUserInput s env.key, [])
  | SystemMode.zeroing => performTaring s env
  | SystemMode.dispensing => controlDispensing s env
  | SystemMode.finished => showCompletion s env

/-- Program state right after `setup()`: globals at their initializers, the
motor stopped, the prompt shown, the handler statics at their first-read
values. -/
def initialState : Sys :=
  { currentMode := SystemMode.weightInput
    desiredWeight := 0
    measuredWeight := 0
    userInput := []
    isMotorOn := false
    fineControlMode := false
    previousUpdate := 0
    completionTime := 0
    motorPin1 := false
    motorPin2 := false
    displayTop := "Input Weight (g):"
    displayBottom := ""
    isTaring := false
    tareBeginTime := 0
    lastMeasurement := 0
    isMotorActive := false
    lastMotorChange := 0 }

/-- States reachable from `initialState` by iterating `loop()`. -/
inductive Reachable : Sys → Prop
  | init : Reachable initialState
  | step (s : Sys) (env : Env) : Reachable s → Reachable (loopStep s env).1

/-- An iteration in which only the key `c` arrives (no sensor activity). -/
def keyEnv (c : Char) : Env :=
  { now := 0, key := some c, sensorUpdate := false, tareStatus := false, sensorData := 0 }

/-- An iteration at time `t` with no key and no sensor activity. -/
def idleEnv (t : ℕ) : Env :=
  { now := t, key := none, sensorUpdate := false, tareStatus := false, sensorData := 0 }

/-- Concrete run, step 1: press `5` in the Input state. -/
def traceAfterDigit : Sys := (loopStep initialState (keyEnv '5')).1

/-- Concrete run, step 2: press `#`; target 5 accepted, state `ZEROING`. -/
def traceAfterFinalize : Sys := (loopStep traceAfterDigit (keyEnv '#')).1

/-- Concrete run, step 3: first Zeroing poll at t = 1000 ms issues the tare. -/
def traceTareIssued : Sys × List Event := loopStep traceAfterFinalize (idleEnv 1000)

/-- Concrete run, step 4: poll at t = 11001 ms; elapsed 10001 ms > 10000,
so the tare times out and the full reset runs. -/
def traceTareTimedOut : Sys × List Event := loopStep traceTareIssued.1 (idleEnv 11001)

/-- Concrete run, step 5: back in Input, press `7`. -/
def traceSecondDigit : Sys := (loopStep traceTareTimedOut.1 (keyEnv '7')).1

/-- Concrete run, step 6: press `#`; target 7 accepted, state `ZEROING` again. -/
def traceSecondFinalize : Sys := (loopStep traceSecondDigit (keyEnv '#')).1

/-- Concrete run, step 7: the first poll of the second Zeroing episode,
at t = 12000 ms. -/
def traceSecondZeroingPoll : Sys × List Event := loopStep traceSecondFinalize (idleEnv 12000)

/-- A concrete state in the Dispensing mode. -/
def dispProbe : Sys := { initialState with currentMode := SystemMode.dispensing }

/-- A concrete state in the Zeroing mode with the tare handshake running. -/
def zeroProbe : Sys :=
  { initialState with currentMode := SystemMode.zeroing, isTaring := true }

/-- A concrete state with fine-control mode already on. -/
def fineProbe : Sys := { initialState with fineControlMode := true }

/-- A concrete Input-mode state whose buffer holds "5". -/
def inputProbe5 : Sys := { initialState with userInput := ['5'] }

/-! ## Helper lemmas: what each sub-handler leaves unchanged -/

theorem parseFloat_nonneg (l : List Char) : 0 ≤ parseFloat l := by
  unfold parseFloat
  positivity

@[simp] theorem sampleSensor_currentMode (s : Sys) (env : Env) :
    (sampleSensor s env).currentMode = s.currentMode := by
  unfold sampleSensor; split_ifs <;> rfl

@[simp] theorem sampleSensor_desiredWeight (s : Sys) (env : Env) :
    (sampleSensor s env).desiredWeight = s.desiredWeight := by
  unfold sampleSensor; split_ifs <;> rfl

@[simp] theorem sampleSensor_fineControlMode (s : Sys) (env : Env) :
    (sampleSensor s env).fineControlMode = s.fineControlMode := by
  unfold sampleSensor; split_ifs <;> rfl

@[simp] theorem sampleSensor_userInput (s : Sys) (env : Env) :
    (sampleSensor s env).userInput = s.userInput := by
  unfold sampleSensor; split_ifs <;> rfl

@[simp] theorem refreshWeights_currentMode (s : Sys) (env : Env) :
    (refreshWeights s env).currentMode = s.currentMode := by
  unfold refreshWeights; split_ifs <;> rfl

@[simp] theorem refreshWeights_desiredWeight (s : Sys) (env : Env) :
    (refreshWeights s env).desiredWeight = s.desiredWeight := by
  unfold refreshWeights; split_ifs <;> rfl

@[simp] theorem refreshWeights_measuredWeight (s : Sys) (env : Env) :
    (refreshWeights s env).measuredWeight = s.measuredWeight := by
  unfold refreshWeights; split_ifs <;> rfl

@[simp] theorem refreshWeights_fineControlMode (s : Sys) (env : Env) :
    (refreshWeights s env).fineControlMode = s.fineControlMode := by
  unfold refreshWeights; split_ifs <;> rfl

@[simp] theorem refreshWeights_userInput (s : Sys) (env : Env) :
    (refreshWeights s env).userInput = s.userInput := by
  unfold refreshWeights; split_ifs <;> rfl

@[simp] theorem forceFine_currentMode (s : Sys) :
    (forceFine s).currentMode = s.currentMode := by
  unfold forceFine; split_ifs <;> rfl

@[simp] theorem forceFine_desiredWeight (s : Sys) :
    (forceFine s).desiredWeight = s.desiredWeight := by
  unfold forceFine; split_ifs <;> rfl

@[simp] theorem forceFine_measuredWeight (s : Sys) :
    (forceFine s).measuredWeight = s.measuredWeight := by
  unfold forceFine; split_ifs <;> rfl

@[simp] theorem forceFine_userInput (s : Sys) :
    (forceFine s).userInput = s.userInput := by
  unfold forceFine; split_ifs <;> rfl

theorem forceFine_fineControlMode (s : Sys) :
    ((forceFine s).fineControlMode = true ↔
      (s.fineControlMode = true ∨ s.desiredWeight ≤ 600)) := by
  unfold forceFine; split_ifs with h <;> simp [h]

@[simp] theorem preciseDispensing_currentMode (s : Sys) (now onTime : ℕ) :
    (preciseDispensing s now onTime).currentMode = s.currentMode := by
  unfold preciseDispensing; split_ifs <;> rfl

@[simp] theorem preciseDispensing_desiredWeight (s : Sys) (now onTime : ℕ) :
    (preciseDispensing s now onTime).desiredWeight = s.desiredWeight := by
  unfold preciseDispensing; split_ifs <;> rfl

@[simp] theorem preciseDispensing_measuredWeight (s : Sys) (now onTime : ℕ) :
    (preciseDispensing s now onTime).measuredWeight = s.measuredWeight := by
  unfold preciseDispensing; split_ifs <;> rfl

@[simp] theorem preciseDispensing_fineControlMode (s : Sys) (now onTime : ℕ) :
    (preciseDispensing s now onTime).fineControlMode = s.fineControlMode := by
  unfold preciseDispensing; split_ifs <;> rfl

@[simp] theorem preciseDispensing_userInput (s : Sys) (now onTime : ℕ) :
    (preciseDispensing s now onTime).userInput = s.userInput := by
  unfold preciseDispensing; split_ifs <;> rfl

@[simp] theorem drivePulses_currentMode (s : Sys) (now : ℕ) :
    (drivePulses s now).1.currentMode = s.currentMode := by
  unfold drivePulses; split_ifs <;> simp

@[simp] theorem drivePulses_desiredWeight (s : Sys) (now : ℕ) :
    (drivePulses s now).1.desiredWeight = s.desiredWeight := by
  unfold drivePulses; split_ifs <;> simp

@[simp] theorem drivePulses_measuredWeight (s : Sys) (now : ℕ) :
    (drivePulses s now).1.measuredWeight = s.measuredWeight := by
  unfold drivePulses; split_ifs <;> simp

@[simp] theorem drivePulses_fineControlMode (s : Sys) (now : ℕ) :
    (drivePulses s now).1.fineControlMode = s.fineControlMode := by
  unfold drivePulses; split_ifs <;> simp

@[simp] theorem drivePulses_userInput (s : Sys) (now : ℕ) :
    (drivePulses s now).1.userInput = s.userInput := by
  unfold drivePulses; split_ifs <;> simp

theorem drivePulses_events (s : Sys) (now : ℕ) :
    (drivePulses s now).2 =
      if s.fineControlMode then
        [Event.pulse (if s.measuredWeight ≥ s.desiredWeight - 200 then 20 else 80) 200]
      else [] := by
  unfold drivePulses; split_ifs <;> simp_all

@[simp] theorem finishOrEnterFine_measuredWeight (s : Sys) (now : ℕ) :
    (finishOrEnterFine s now).measuredWeight = s.measuredWeight := by
  unfold finishOrEnterFine showOnDisplay turnMotorOff; split_ifs <;> rfl

@[simp] theorem finishOrEnterFine_desiredWeight (s : Sys) (now : ℕ) :
    (finishOrEnterFine s now).desiredWeight = s.desiredWeight := by
  unfold finishOrEnterFine showOnDisplay turnMotorOff; split_ifs <;> rfl

@[simp] theorem finishOrEnterFine_userInput (s : Sys) (now : ℕ) :
    (finishOrEnterFine s now).userInput = s.userInput := by
  unfold finishOrEnterFine showOnDisplay turnMotorOff; split_ifs <;> rfl

theorem finishOrEnterFine_currentMode (s : Sys) (now : ℕ) :
    (finishOrEnterFine s now).currentMode =
      if s.measuredWeight ≥ s.desiredWeight then SystemMode.finished else s.currentMode := by
  unfold finishOrEnterFine showOnDisplay turnMotorOff
  split_ifs <;> simp_all

theorem finishOrEnterFine_complete (s : Sys) (now : ℕ)
    (h : s.measuredWeight ≥ s.desiredWeight) :
    finishOrEnterFine s now =
      { s with
          currentMode := SystemMode.finished
          motorPin1 := false
          motorPin2 := false
          isMotorOn := false
          displayTop := "Completed!"
          displayBottom := ""
          completionTime := now } := by
  unfold finishOrEnterFine showOnDisplay turnMotorOff
  rw [if_pos h]

theorem finishOrEnterFine_fineControlMode (s : Sys) (now : ℕ) :
    ((finishOrEnterFine s now).fineControlMode = true ↔
      (s.fineControlMode = true ∨
        (s.measuredWeight < s.desiredWeight ∧
          s.measuredWeight > s.desiredWeight - 500))) := by
  unfold finishOrEnterFine showOnDisplay turnMotorOff
  split_ifs with h1 h2
  · constructor
    · exact fun hf => Or.inl hf
    · rintro (hf | ⟨hlt, hgt⟩)
      · exact hf
      · exact absurd h1 (not_le.mpr hlt)
  · constructor
    · exact fun _ => Or.inr ⟨lt_of_not_ge h1, h2.1⟩
    · exact fun _ => rfl
  · constructor
    · exact fun hf => Or.inl hf
    · rintro (hf | ⟨hlt, hgt⟩)
      · exact hf
      · cases hb : s.fineControlMode with
        | true => rfl
        | false => exact absurd ⟨hgt, by rw [hb]; rfl⟩ h2

@[simp] theorem restartSystem_currentMode (s : Sys) :
    (restartSystem s).currentMode = SystemMode.weightInput := rfl

@[simp] theorem restartSystem_desiredWeight (s : Sys) :
    (restartSystem s).desiredWeight = 0 := rfl

@[simp] theorem restartSystem_measuredWeight (s : Sys) :
    (restartSystem s).measuredWeight = 0 := rfl

@[simp] theorem restartSystem_userInput (s : Sys) :
    (restartSystem s).userInput = [] := rfl

@[simp] theorem restartSystem_fineControlMode (s : Sys) :
    (restartSystem s).fineControlMode = false := rfl

@[simp] theorem restartSystem_isMotorOn (s : Sys) :
    (restartSystem s).isMotorOn = false := rfl

@[simp] theorem restartSystem_motorPin1 (s : Sys) :
    (restartSystem s).motorPin1 = false := rfl

@[simp] theorem restartSystem_motorPin2 (s : Sys) :
    (restartSystem s).motorPin2 = false := rfl

@[simp] theorem processUserInput_fineControlMode (s : Sys) (key : Option Char) :
    (processUserInput s key).fineControlMode = s.fineControlMode := by
  cases key with
  | none => rfl
  | some c =>
    simp only [processUserInput, showOnDisplay, refreshDisplay]
    split_ifs <;> rfl

theorem loopStep_input (s : Sys) (env : Env)
    (h : s.currentMode = SystemMode.weightInput) :
    loopStep s env = (processUserInput s env.key, []) := by
  unfold loopStep
  rw [h]

theorem loopStep_zeroing (s : Sys) (env : Env)
    (h : s.currentMode = SystemMode.zeroing) :
    loopStep s env = performTaring s env := by
  unfold loopStep
  rw [h]

theorem loopStep_dispensing (s : Sys) (env : Env)
    (h : s.currentMode = SystemMode.dispensing) :
    loopStep s env = controlDispensing s env := by
  unfold loopStep
  rw [h]

theorem loopStep_finished (s : Sys) (env : Env)
    (h : s.currentMode = SystemMode.finished) :
    loopStep s env = showCompletion s env := by
  unfold loopStep
  rw [h]

theorem controlDispensing_fst (s : Sys) (env : Env) :
    (controlDispensing s env).1 =
      finishOrEnterFine
        (drivePulses (forceFine (refreshWeights (sampleSensor s env) env)) env.now).1
        env.now := rfl

theorem controlDispensing_snd (s : Sys) (env : Env) :
    (controlDispensing s env).2 =
      (drivePulses (forceFine (refreshWeights (sampleSensor s env) env)) env.now).2 := rfl

/-! ## Concrete-trace evaluation lemmas -/

theorem traceAfterDigit_eq :
    traceAfterDigit = { initialState with userInput := ['5'], displayBottom := "5" } := by
  decide

theorem traceAfterFinalize_eq :
    traceAfterFinalize =
      { initialState with
          userInput := ['5']
          desiredWeight := 5
          currentMode := SystemMode.zeroing
          displayTop := "Calibrating..."
          displayBottom := "" } := by
  unfold traceAfterFinalize
  rw [traceAfterDigit_eq]
  simp [loopStep, initialState, processUserInput, keyEnv, parseFloat, digitsVal, showOnDisplay]

theorem traceTareIssued_eq :
    traceTareIssued =
      ({ initialState with
          userInput := ['5']
          desiredWeight := 5
          currentMode := SystemMode.zeroing
          displayTop := "Calibrating..."
          displayBottom := ""
          isTaring := true
          tareBeginTime := 1000 }, [Event.tareCmd]) := by
  unfold traceTareIssued
  rw [traceAfterFinalize_eq]
  decide

theorem traceTareTimedOut_eq :
    traceTareTimedOut =
      ({ initialState with isTaring := true, tareBeginTime := 1000 }, [Event.reset]) := by
  unfold traceTareTimedOut
  rw [traceTareIssued_eq]
  decide

theorem traceSecondDigit_eq :
    traceSecondDigit =
      { initialState with
          isTaring := true
          tareBeginTime := 1000
          userInput := ['7']
          displayBottom := "7" } := by
  unfold traceSecondDigit
  rw [traceTareTimedOut_eq]
  decide

theorem traceSecondFinalize_eq :
    traceSecondFinalize =
      { initialState with
          isTaring := true
          tareBeginTime := 1000
          userInput := ['7']
          desiredWeight := 7
          currentMode := SystemMode.zeroing
          displayTop := "Calibrating..."
          displayBottom := "" } := by
  unfold traceSecondFinalize
  rw [traceSecondDigit_eq]
  simp [loopStep, initialState, processUserInput, keyEnv, parseFloat, digitsVal, showOnDisplay]

theorem traceSecondZeroingPoll_eq :
    traceSecondZeroingPoll =
      ({ initialState with isTaring := true, tareBeginTime := 1000 }, [Event.reset]) := by
  unfold traceSecondZeroingPoll
  rw [traceSecondFinalize_eq]
  decide

/-! ## Claim theorems -/

/-- C10: `restartSystem` modifies exactly the controller's shared fields —
target, measurement, input buffer, fine-control flag, motor outputs, system
state and display — and leaves every handler-local persistent variable
(`isTaring`, `tareBeginTime`, `isMotorActive`, `lastMotorChange`,
`lastMeasurement`, `previousUpdate`) unchanged (as well as
`completionTime`). -/
theorem restart_frame (s : Sys) :
    restartSystem s =
      { s with
          desiredWeight := 0
          measuredWeight := 0
          userInput := []
          fineControlMode := false
          isMotorOn := false
          motorPin1 := false
          motorPin2 := false
          currentMode := SystemMode.weightInput
          displayTop := "Input Weight (g):"
          displayBottom := "" } ∧
    (restartSystem s).isTaring = s.isTaring ∧
    (restartSystem s).tareBeginTime = s.tareBeginTime ∧
    (restartSystem s).isMotorActive = s.isMotorActive ∧
    (restartSystem s).lastMotorChange = s.lastMotorChange ∧
    (restartSystem s).lastMeasurement = s.lastMeasurement ∧
    (restartSystem s).previousUpdate = s.previousUpdate ∧
    (restartSystem s).completionTime = s.completionTime :=
  ⟨rfl, rfl, rfl, rfl, rfl, rfl, rfl, rfl⟩

/-- C2: in the Zeroing state with the tare handshake still in progress, a
poll more than 10 s after the tare start performs the full reset (state
Input; target, measurement, buffer and fine-control flag cleared; actuator
disabled), while a tare-complete report before the timeout moves the state
to Dispensing. -/
theorem taring_timeout_reset (s : Sys) (env : Env)
    (hmode : s.currentMode = SystemMode.zeroing) (hprog : s.isTaring = true) :
    (env.now - s.tareBeginTime > 10000 →
        (loopStep s env).1.currentMode = SystemMode.weightInput ∧
        (loopStep s env).1.desiredWeight = 0 ∧
        (loopStep s env).1.measuredWeight = 0 ∧
        (loopStep s env).1.userInput = [] ∧
        (loopStep s env).1.fineControlMode = false ∧
        (loopStep s env).1.isMotorOn = false ∧
        (loopStep s env).1.motorPin1 = false ∧
        (loopStep s env).1.motorPin2 = false) ∧
    (env.now - s.tareBeginTime ≤ 10000 → env.sensorUpdate = true →
      env.tareStatus = true →
        (loopStep s env).1.currentMode = SystemMode.dispensing ∧
        (loopStep s env).1.isTaring = false) := by
  rw [loopStep_zeroing s env hmode]
  unfold performTaring
  split_ifs with h1 h2 h3 h4
  · exfalso
    rw [hprog] at h1
    exact absurd h1 (by decide)
  · constructor
    · intro _
      exact ⟨rfl, rfl, rfl, rfl, rfl, rfl, rfl, rfl⟩
    · intro hle _ _
      exact absurd h2 (not_lt.mpr hle)
  · constructor
    · intro ht
      exact absurd ht h2
    · intro _ _ _
      unfold turnMotorOn
      split_ifs <;> exact ⟨rfl, rfl⟩
  · constructor
    · intro ht
      exact absurd ht h2
    · intro _ _ hst
      exact absurd hst h4
  · constructor
    · intro ht
      exact absurd ht h2
    · intro _ hupd _
      exact absurd hupd h3

/-- Witness for C2 at a concrete in-progress Zeroing state and a poll
10001 ms after the recorded tare start. -/
theorem taring_timeout_reset_witness :
    zeroProbe.currentMode = SystemMode.zeroing ∧
    zeroProbe.isTaring = true ∧
    (((idleEnv 10001).now - zeroProbe.tareBeginTime > 10000 →
        (loopStep zeroProbe (idleEnv 10001)).1.currentMode = SystemMode.weightInput ∧
        (loopStep zeroProbe (idleEnv 10001)).1.desiredWeight = 0 ∧
        (loopStep zeroProbe (idleEnv 10001)).1.measuredWeight = 0 ∧
        (loopStep zeroProbe (idleEnv 10001)).1.userInput = [] ∧
        (loopStep zeroProbe (idleEnv 10001)).1.fineControlMode = false ∧
        (loopStep zeroProbe (idleEnv 10001)).1.isMotorOn = false ∧
        (loopStep zeroProbe (idleEnv 10001)).1.motorPin1 = false ∧
        (loopStep zeroProbe (idleEnv 10001)).1.motorPin2 = false) ∧
      ((idleEnv 10001).now - zeroProbe.tareBeginTime ≤ 10000 →
        (idleEnv 10001).sensorUpdate = true → (idleEnv 10001).tareStatus = true →
          (loopStep zeroProbe (idleEnv 10001)).1.currentMode = SystemMode.dispensing ∧
          (loopStep zeroProbe (idleEnv 10001)).1.isTaring = false)) :=
  ⟨rfl, rfl, taring_timeout_reset zeroProbe (idleEnv 10001) rfl rfl⟩

/-- C6: once `fineControlMode` is true, a loop iteration either keeps it true
or performs the full reset (the only operation that clears it). -/
theorem fine_mode_monotone (s : Sys) (env : Env) (h : s.fineControlMode = true) :
    (loopStep s env).1.fineControlMode = true ∨ Event.reset ∈ (loopStep s env).2 := by
  cases hmode : s.currentMode with
  | weightInput =>
    rw [loopStep_input s env hmode]
    left
    rw [processUserInput_fineControlMode]
    exact h
  | zeroing =>
    rw [loopStep_zeroing s env hmode]
    unfold performTaring
    split_ifs
    · left; exact h
    · right; simp
    · left
      unfold turnMotorOn
      split_ifs <;> exact h
    · left; exact h
    · left; exact h
  | dispensing =>
    left
    rw [loopStep_dispensing s env hmode, controlDispensing_fst]
    apply (finishOrEnterFine_fineControlMode _ _).mpr
    left
    rw [drivePulses_fineControlMode]
    apply (forceFine_fineControlMode _).mpr
    left
    rw [refreshWeights_fineControlMode, sampleSensor_fineControlMode]
    exact h
  | finished =>
    rw [loopStep_finished s env hmode]
    unfold showCompletion
    split_ifs
    · right; simp
    · left; exact h

/-- Witness for C6 at a concrete state with fine control on. -/
theorem fine_mode_monotone_witness :
    fineProbe.fineControlMode = true ∧
    ((loopStep fineProbe (idleEnv 0)).1.fineControlMode = true ∨
      Event.reset ∈ (loopStep fineProbe (idleEnv 0)).2) :=
  ⟨rfl, fine_mode_monotone fineProbe (idleEnv 0) rfl⟩

/-- C1: in the Dispensing state the controller transitions to Finished if
and only if `currentMass ≥ targetMass`; on that transition it disables the
actuator, shows "Completed!" and records the completion timestamp; otherwise
the state stays Dispensing — regardless of whether fine control is
enabled. -/
theorem dispensing_completion (s : Sys) (env : Env)
    (hmode : s.currentMode = SystemMode.dispensing) :
    (((loopStep s env).1.currentMode = SystemMode.finished) ↔
        (loopStep s env).1.measuredWeight ≥ s.desiredWeight) ∧
    ((loopStep s env).1.measuredWeight ≥ s.desiredWeight →
        (loopStep s env).1.isMotorOn = false ∧
        (loopStep s env).1.motorPin1 = false ∧
        (loopStep s env).1.motorPin2 = false ∧
        (loopStep s env).1.displayTop = "Completed!" ∧
        (loopStep s env).1.completionTime = env.now) ∧
    ((loopStep s env).1.measuredWeight < s.desiredWeight →
        (loopStep s env).1.currentMode = SystemMode.dispensing) := by
  simp only [loopStep_dispensing s env hmode, controlDispensing_fst]
  set X := (drivePulses (forceFine (refreshWeights (sampleSensor s env) env)) env.now).1 with hX
  have hdes : X.desiredWeight = s.desiredWeight := by rw [hX]; simp
  have hmodeX : X.currentMode = SystemMode.dispensing := by rw [hX]; simp [hmode]
  by_cases hge : X.measuredWeight ≥ X.desiredWeight
  · rw [finishOrEnterFine_complete X env.now hge]
    refine ⟨⟨fun _ => ?_, fun _ => rfl⟩, fun _ => ⟨rfl, rfl, rfl, rfl, rfl⟩, fun hlt => ?_⟩
    · show X.measuredWeight ≥ s.desiredWeight
      rw [← hdes]
      exact hge
    · exfalso
      rw [hdes] at hge
      exact absurd (show X.measuredWeight < s.desiredWeight from hlt) (not_lt.mpr hge)
  · have hm := finishOrEnterFine_currentMode X env.now
    rw [if_neg hge] at hm
    refine ⟨?_, ?_, ?_⟩
    · rw [hm, hmodeX, finishOrEnterFine_measuredWeight]
      constructor
      · intro hc
        exact absurd hc (by decide)
      · intro hge2
        rw [hdes] at hge
        exact absurd hge2 hge
    · intro hge2
      rw [finishOrEnterFine_measuredWeight] at hge2
      rw [hdes] at hge
      exact absurd hge2 hge
    · intro _
      rw [hm, hmodeX]

/-- Witness for C1 at a concrete Dispensing state. -/
theorem dispensing_completion_witness :
    dispProbe.currentMode = SystemMode.dispensing ∧
    ((((loopStep dispProbe (idleEnv 0)).1.currentMode = SystemMode.finished) ↔
        (loopStep dispProbe (idleEnv 0)).1.measuredWeight ≥ dispProbe.desiredWeight) ∧
      ((loopStep dispProbe (idleEnv 0)).1.measuredWeight ≥ dispProbe.desiredWeight →
        (loopStep dispProbe (idleEnv 0)).1.isMotorOn = false ∧
        (loopStep dispProbe (idleEnv 0)).1.motorPin1 = false ∧
        (loopStep dispProbe (idleEnv 0)).1.motorPin2 = false ∧
        (loopStep dispProbe (idleEnv 0)).1.displayTop = "Completed!" ∧
        (loopStep dispProbe (idleEnv 0)).1.completionTime = (idleEnv 0).now) ∧
      ((loopStep dispProbe (idleEnv 0)).1.measuredWeight < dispProbe.desiredWeight →
        (loopStep dispProbe (idleEnv 0)).1.currentMode = SystemMode.dispensing)) :=
  ⟨rfl, dispensing_completion dispProbe (idleEnv 0) rfl⟩

/-- C7: during Dispensing, after a poll the fine-control flag is set exactly
when it was already set, or the target is at most 600, or the (freshly
sampled) mass is within 500 below the target without having reached it. -/
theorem fine_mode_entry (s : Sys) (env : Env)
    (hmode : s.currentMode = SystemMode.dispensing) :
    ((loopStep s env).1.fineControlMode = true ↔
      (s.fineControlMode = true ∨ s.desiredWeight ≤ 600 ∨
        ((loopStep s env).1.measuredWeight > s.desiredWeight - 500 ∧
          (loopStep s env).1.measuredWeight < s.desiredWeight))) := by
  simp only [loopStep_dispensing s env hmode, controlDispensing_fst]
  set X := (drivePulses (forceFine (refreshWeights (sampleSensor s env) env)) env.now).1 with hX
  have hdes : X.desiredWeight = s.desiredWeight := by rw [hX]; simp
  have hfX : (X.fineControlMode = true ↔
      (s.fineControlMode = true ∨ s.desiredWeight ≤ 600)) := by
    rw [hX]
    simp only [drivePulses_fineControlMode]
    rw [forceFine_fineControlMode]
    simp
  rw [finishOrEnterFine_fineControlMode, finishOrEnterFine_measuredWeight, hfX, hdes]
  tauto

/-- Witness for C7 at a concrete Dispensing state. -/
theorem fine_mode_entry_witness :
    dispProbe.currentMode = SystemMode.dispensing ∧
    ((loopStep dispProbe (idleEnv 1)).1.fineControlMode = true ↔
      (dispProbe.fineControlMode = true ∨ dispProbe.desiredWeight ≤ 600 ∨
        ((loopStep dispProbe (idleEnv 1)).1.measuredWeight > dispProbe.desiredWeight - 500 ∧
          (loopStep dispProbe (idleEnv 1)).1.measuredWeight < dispProbe.desiredWeight))) :=
  ⟨rfl, fine_mode_entry dispProbe (idleEnv 1) rfl⟩

/-- C8: on a Dispensing poll with fine control enabled at the drive decision
(already sticky, or just forced by a target of at most 600), exactly one
pulsed-drive call is made, with on-duration 20 when the mass is within 200
of the target and 80 otherwise, and with the fixed off-duration 200; with
fine control disabled there, no pulsed-drive call is made. -/
theorem pulse_width_selection (s : Sys) (env : Env)
    (hmode : s.currentMode = SystemMode.dispensing) :
    ((s.fineControlMode = true ∨ s.desiredWeight ≤ 600) →
        (loopStep s env).2 =
          [Event.pulse
            (if (loopStep s env).1.measuredWeight ≥ s.desiredWeight - 200 then 20 else 80)
            200]) ∧
    (¬(s.fineControlMode = true ∨ s.desiredWeight ≤ 600) →
        (loopStep s env).2 = []) := by
  simp only [loopStep_dispensing s env hmode, controlDispensing_fst, controlDispensing_snd]
  set Y := forceFine (refreshWeights (sampleSensor s env) env) with hY
  have hdY : Y.desiredWeight = s.desiredWeight := by rw [hY]; simp
  have hfY : (Y.fineControlMode = true ↔
      (s.fineControlMode = true ∨ s.desiredWeight ≤ 600)) := by
    rw [hY]
    rw [forceFine_fineControlMode]
    simp
  have hmF : (finishOrEnterFine (drivePulses Y env.now).1 env.now).measuredWeight
      = Y.measuredWeight := by simp
  rw [drivePulses_events, hmF, hdY]
  constructor
  · intro hfc
    rw [if_pos (hfY.mpr hfc)]
  · intro hfc
    rw [if_neg (fun hb => hfc (hfY.mp hb))]

/-- Witness for C8 at a concrete Dispensing state. -/
theorem pulse_width_selection_witness :
    dispProbe.currentMode = SystemMode.dispensing ∧
    (((dispProbe.fineControlMode = true ∨ dispProbe.desiredWeight ≤ 600) →
        (loopStep dispProbe (idleEnv 2)).2 =
          [Event.pulse
            (if (loopStep dispProbe (idleEnv 2)).1.measuredWeight ≥
                dispProbe.desiredWeight - 200 then 20 else 80)
            200]) ∧
      (¬(dispProbe.fineControlMode = true ∨ dispProbe.desiredWeight ≤ 600) →
        (loopStep dispProbe (idleEnv 2)).2 = [])) :=
  ⟨rfl, pulse_width_selection dispProbe (idleEnv 2) rfl⟩

/-- C3 counterexample: after keying "5" and pressing `#`, the state moves to
Zeroing and the target is set, but the input buffer still holds "5" — the
handler never clears the buffer on finalize (it is cleared only later, by
`*` or by the full reset). -/
theorem finalize_buffer_counterexample :
    traceAfterFinalize.currentMode = SystemMode.zeroing ∧
    traceAfterFinalize.desiredWeight = 5 ∧
    traceAfterFinalize.userInput = ['5'] ∧
    ¬ traceAfterFinalize.userInput = [] := by
  rw [traceAfterFinalize_eq]
  exact ⟨rfl, rfl, rfl, by decide⟩

/-- C3 (amended): in the Input state, pressing `#` with a non-empty buffer
whose parse is > 0 populates the target with the parsed value, transitions
to Zeroing and updates the display to the calibrating message, while the
input buffer is left unchanged (not cleared). -/
theorem finalize_transition (s : Sys) (env : Env)
    (hmode : s.currentMode = SystemMode.weightInput)
    (hkey : env.key = some '#')
    (hne : s.userInput ≠ [])
    (hpos : 0 < parseFloat s.userInput) :
    (loopStep s env).1.desiredWeight = parseFloat s.userInput ∧
    (loopStep s env).1.userInput = s.userInput ∧
    (loopStep s env).1.currentMode = SystemMode.zeroing ∧
    (loopStep s env).1.displayTop = "Calibrating..." := by
  rw [loopStep_input s env hmode, hkey]
  simp only [processUserInput]
  simp only [if_true]
  rw [if_pos (List.length_pos.mpr hne), if_pos hpos]
  exact ⟨rfl, rfl, rfl, rfl⟩

/-- Witness for the amended C3 at a concrete Input state with buffer "5". -/
theorem finalize_transition_witness :
    inputProbe5.currentMode = SystemMode.weightInput ∧
    (keyEnv '#').key = some '#' ∧
    inputProbe5.userInput ≠ [] ∧
    0 < parseFloat inputProbe5.userInput ∧
    ((loopStep inputProbe5 (keyEnv '#')).1.desiredWeight = parseFloat inputProbe5.userInput ∧
      (loopStep inputProbe5 (keyEnv '#')).1.userInput = inputProbe5.userInput ∧
      (loopStep inputProbe5 (keyEnv '#')).1.currentMode = SystemMode.zeroing ∧
      (loopStep inputProbe5 (keyEnv '#')).1.displayTop = "Calibrating...") :=
  ⟨rfl, rfl, by decide, by simp [inputProbe5, parseFloat, digitsVal],
    finalize_transition inputProbe5 (keyEnv '#') rfl rfl (by decide)
      (by simp [inputProbe5, parseFloat, digitsVal])⟩

/-- Invariant: whenever the reachable system is in the Input state, the
stored target is 0 (startup and every reset clear it, and a rejected entry
can only write the parse of a digit-and-dot buffer that is not positive,
hence 0). -/
theorem desired_zero_in_input (s : Sys) (hr : Reachable s) :
    s.currentMode = SystemMode.weightInput → s.desiredWeight = 0 := by
  induction hr with
  | init => intro _; rfl
  | step s env hr ih =>
    intro hmode'
    cases hmode : s.currentMode with
    | weightInput =>
      have hd0 := ih hmode
      rw [loopStep_input s env hmode] at hmode' ⊢
      cases hkey : env.key with
      | none => exact hd0
      | some c =>
        rw [hkey] at hmode'
        simp only [processUserInput] at hmode' ⊢
        split_ifs at hmode' ⊢ with h1 h2 h3 h4 h5
        · simp [showOnDisplay] at hmode'
        · exact le_antisymm (not_lt.mp h3) (parseFloat_nonneg _)
        · exact hd0
        · exact hd0
        · exact hd0
        · exact hd0
    | zeroing =>
      rw [loopStep_zeroing s env hmode] at hmode' ⊢
      unfold performTaring at hmode' ⊢
      split_ifs at hmode' ⊢ with h1 h2 h3 h4
      · exfalso
        have h5 : s.currentMode = SystemMode.weightInput := hmode'
        rw [hmode] at h5
        exact absurd h5 (by decide)
      · rfl
      · exfalso
        have h5 := hmode'
        unfold turnMotorOn at h5
        split_ifs at h5
      · exfalso
        have h5 : s.currentMode = SystemMode.weightInput := hmode'
        rw [hmode] at h5
        exact absurd h5 (by decide)
      · exfalso
        have h5 : s.currentMode = SystemMode.weightInput := hmode'
        rw [hmode] at h5
        exact absurd h5 (by decide)
    | dispensing =>
      exfalso
      rw [loopStep_dispensing s env hmode, controlDispensing_fst] at hmode'
      rw [finishOrEnterFine_currentMode] at hmode'
      rw [drivePulses_currentMode, forceFine_currentMode, refreshWeights_currentMode,
        sampleSensor_currentMode, hmode] at hmode'
      split_ifs at hmode'
    | finished =>
      rw [loopStep_finished s env hmode] at hmode' ⊢
      unfold showCompletion at hmode' ⊢
      split_ifs at hmode' ⊢
      · rfl
      · exfalso
        have h5 : s.currentMode = SystemMode.weightInput := hmode'
        rw [hmode] at h5
        exact absurd h5 (by decide)

/-- C4: in a reachable Input state, pressing `#` consumes the buffer into
the target only when the buffer is non-empty and parses to a value > 0;
with an empty buffer or a non-positive parse the state remains Input and the
stored target value is unchanged. -/
theorem targetMass_consumption (s : Sys) (env : Env) (hr : Reachable s)
    (hmode : s.currentMode = SystemMode.weightInput) (hkey : env.key = some '#') :
    ((s.userInput = [] ∨ parseFloat s.userInput ≤ 0) →
        (loopStep s env).1.currentMode = SystemMode.weightInput ∧
        (loopStep s env).1.desiredWeight = s.desiredWeight) ∧
    (s.userInput ≠ [] → 0 < parseFloat s.userInput →
        (loopStep s env).1.desiredWeight = parseFloat s.userInput ∧
        (loopStep s env).1.currentMode = SystemMode.zeroing) := by
  have hd0 := desired_zero_in_input s hr hmode
  rw [loopStep_input s env hmode, hkey]
  simp only [processUserInput]
  simp only [if_true]
  constructor
  · rintro (hemp | hle)
    · rw [if_neg (show ¬ s.userInput.length > 0 by rw [hemp]; decide)]
      exact ⟨hmode, rfl⟩
    · by_cases hlen : s.userInput.length > 0
      · rw [if_pos hlen, if_neg (not_lt.mpr hle)]
        refine ⟨hmode, ?_⟩
        show parseFloat s.userInput = s.desiredWeight
        rw [hd0]
        exact le_antisymm hle (parseFloat_nonneg _)
      · rw [if_neg hlen]
        exact ⟨hmode, rfl⟩
  · intro hne hpos
    rw [if_pos (List.length_pos.mpr hne), if_pos hpos]
    exact ⟨rfl, rfl⟩

/-- Witness for C4 at the (reachable) initial state with key `#`. -/
theorem targetMass_consumption_witness :
    initialState.currentMode = SystemMode.weightInput ∧
    (keyEnv '#').key = some '#' ∧
    (((initialState.userInput = [] ∨ parseFloat initialState.userInput ≤ 0) →
        (loopStep initialState (keyEnv '#')).1.currentMode = SystemMode.weightInput ∧
        (loopStep initialState (keyEnv '#')).1.desiredWeight = initialState.desiredWeight) ∧
      (initialState.userInput ≠ [] → 0 < parseFloat initialState.userInput →
        (loopStep initialState (keyEnv '#')).1.desiredWeight = parseFloat initialState.userInput ∧
        (loopStep initialState (keyEnv '#')).1.currentMode = SystemMode.zeroing)) :=
  ⟨rfl, rfl, targetMass_consumption initialState (keyEnv '#') Reachable.init rfl rfl⟩

/-- C9 counterexample: the append guard checks only the buffer length, not
the number of decimal points — pressing `.` twice from the initial state
stores the buffer "..", which contains two decimal points. -/
theorem buffer_two_dots_counterexample :
    (loopStep (loopStep initialState (keyEnv '.')).1 (keyEnv '.')).1.userInput = ['.', '.'] ∧
    ¬ ((loopStep (loopStep initialState (keyEnv '.')).1 (keyEnv '.')).1.userInput.count '.' ≤ 1) := by
  decide

/-- One loop iteration never grows the input buffer beyond 6 characters. -/
theorem bufferLen_step (s : Sys) (env : Env) (h : s.userInput.length ≤ 6) :
    (loopStep s env).1.userInput.length ≤ 6 := by
  cases hmode : s.currentMode with
  | weightInput =>
    rw [loopStep_input s env hmode]
    cases hkey : env.key with
    | none => exact h
    | some c =>
      simp only [processUserInput]
      split_ifs with h1 h2 h3 h4 h5
      · exact h
      · exact h
      · exact h
      · show ([] : List Char).length ≤ 6
        decide
      · show (s.userInput ++ [c]).length ≤ 6
        rw [List.length_append, List.length_singleton]
        have hlen : s.userInput.length < 6 := by
          simp only [Bool.and_eq_true, decide_eq_true_eq] at h5
          exact h5.2
        omega
      · exact h
  | zeroing =>
    rw [loopStep_zeroing s env hmode]
    unfold performTaring
    split_ifs
    · exact h
    · show ([] : List Char).length ≤ 6
      decide
    · unfold turnMotorOn
      split_ifs <;> exact h
    · exact h
    · exact h
  | dispensing =>
    rw [loopStep_dispensing s env hmode, controlDispensing_fst]
    rw [finishOrEnterFine_userInput, drivePulses_userInput, forceFine_userInput,
      refreshWeights_userInput, sampleSensor_userInput]
    exact h
  | finished =>
    rw [loopStep_finished s env hmode]
    unfold showCompletion
    split_ifs
    · show ([] : List Char).length ≤ 6
      decide
    · exact h

/-- C9 (amended): across every reachable execution the input buffer holds at
most 6 characters, and no key press grows it beyond that bound; the
at-most-one-decimal-point part of the original claim is not enforced by the
code (see the counterexample). -/
theorem buffer_length_invariant (s : Sys) (hr : Reachable s) :
    s.userInput.length ≤ 6 ∧ ∀ env : Env, (loopStep s env).1.userInput.length ≤ 6 := by
  have inv : s.userInput.length ≤ 6 := by
    induction hr with
    | init => decide
    | step s' env' hr' ih => exact bufferLen_step s' env' ih
  exact ⟨inv, fun env => bufferLen_step s env inv⟩

/-- Witness for the amended C9 at the (reachable) initial state. -/
theorem buffer_length_invariant_witness :
    initialState.userInput.length ≤ 6 ∧
    ∀ env : Env, (loopStep initialState env).1.userInput.length ≤ 6 :=
  buffer_length_invariant initialState Reachable.init

/-- C5 (code bug): the first Zeroing episode issues a tare command on its
first poll, but after that episode times out and resets, the in-progress
flag survives the reset (`restartSystem` cannot clear the `static`
`isTaring`), so the next Zeroing episode's first poll issues no tare command
and instead times out against the stale start timestamp, resetting again
immediately. -/
theorem tare_flag_survives_reset :
    traceTareIssued.2 = [Event.tareCmd] ∧
    traceSecondFinalize.currentMode = SystemMode.zeroing ∧
    traceSecondFinalize.isTaring = true ∧
    traceSecondZeroingPoll.2 = [Event.reset] ∧
    Event.tareCmd ∉ traceSecondZeroingPoll.2 ∧
    traceSecondZeroingPoll.1.currentMode = SystemMode.weightInput := by
  refine ⟨?_, ?_, ?_, ?_, ?_, ?_⟩
  · rw [traceTareIssued_eq]
  · rw [traceSecondFinalize_eq]
  · rw [traceSecondFinalize_eq]
  · rw [traceSecondZeroingPoll_eq]
  · rw [traceSecondZeroingPoll_eq]
    decide
  · rw [traceSecondZeroingPoll_eq]
    rfl
